import Mathlib

/-!
Verification of the productivity analytics tools of the lightspeed_mcp
repository (src/tools/productivity_tools.py and src/tools/tasks_tools.py)
against their natural-language specification.

Modelling conventions, mirrored from the Python source:

* Python strings are sequences of code points; they are embedded as
  `List Char` (called `PyStr`), so that `len`, slicing and whitespace
  splitting have exactly Python's per-character meaning.  String case
  folding is modelled per character (ASCII range); no verified claim
  depends on folding of specific non-ASCII characters.
* JSON values handed to / produced by the tools are embedded as the
  inductive `Json`; `json.dumps` is not modelled (the tools' observable
  result is the JSON value serialized, and serialization is external
  library code).
* A JSON field that can be absent or null is embedded as
  `Option (Option PyStr)`: `none` = key absent, `some none` = key present
  with value null, `some (some s)` = key present with a string.  Fields
  for which no verified claim distinguishes absent from null are
  collapsed to `Option PyStr`.
* Python floats are embedded as exact rationals `ℚ`; `round(x, n)` is
  embedded as exact decimal rounding with ties to even (Python's
  rounding mode).
* Exceptions are embedded as `Except PyErr`; a raised exception is an
  `Except.error` carrying the message text (exception payloads are kept
  only up to the message string, and messages containing quotes are
  rendered without the quote characters).
* `datetime` instants are embedded as `Int` (seconds); `timedelta(days=d)`
  is `d * 86400`.  `datetime.fromisoformat` composed with the subsequent
  aware-datetime comparison is external library behaviour and is passed
  in as an abstract `parse : PyStr → Option Int` (`none` = the parse, or
  the later comparison of the parsed value, raises and the record is
  skipped by the enclosing try/except).  `strftime` day keys and
  `isoformat` renderings are likewise abstract parameters.
* The upstream HTTP fetch (make_authenticated_request) is an external
  collaborator; its outcome is an input of type
  `Except PyErr (Option (List α))`: `Except.error` = the call raised,
  `Except.ok none` = the call returned None (or a non-dict / non-list
  data payload, which the callers normalize the same way),
  `Except.ok (some xs)` = a response dict whose data field is the list
  `xs`.  Record ids are taken to be present (they are primary keys of
  the backing store).
-/

namespace Lightspeed

/-- Python string, as a sequence of code points. -/
abbrev PyStr := List Char

/-- Exception payload, kept up to its message text. -/
abbrev PyErr := PyStr

/-- A JSON value, the result shape of every tool. -/
inductive Json where
  | null : Json
  | bool : Bool → Json
  | num : ℚ → Json
  | str : PyStr → Json
  | arr : List Json → Json
  | obj : List (PyStr × Json) → Json

/-- Field lookup in a JSON object (first binding wins, as in a Python dict
built without key collisions). -/
def lookupField : List (PyStr × Json) → PyStr → Option Json
  | [], _ => none
  | (k, v) :: fs, key => if k = key then some v else lookupField fs key

/-- Lookup on a `Json` value: a field of an object, `none` otherwise. -/
def Json.get (j : Json) (key : PyStr) : Option Json :=
  match j with
  | .obj fs => lookupField fs key
  | _ => none

/-- An Option string rendered as a JSON value (None becomes null). -/
def optStr : Option PyStr → Json
  | none => Json.null
  | some s => Json.str s

/-- Char-level case folding, as Python str.lower acts on the ASCII range. -/
def pyLowerChar (c : Char) : Char :=
  if 65 ≤ c.toNat ∧ c.toNat ≤ 90 then Char.ofNat (c.toNat + 32) else c

/-- Python str.lower. -/
def pyLower (s : PyStr) : PyStr := s.map pyLowerChar

/-- The whitespace test of Python str.split and str.strip. -/
def pyWs (c : Char) : Bool := c.isWhitespace

/-- Helper of `pySplit`: accumulates the current word (reversed). -/
def pySplitAux : PyStr → PyStr → List PyStr
  | [], cur => if cur = [] then [] else [cur.reverse]
  | c :: cs, cur =>
    if pyWs c then
      (if cur = [] then pySplitAux cs [] else cur.reverse :: pySplitAux cs [])
    else pySplitAux cs (c :: cur)

/-- Python str.split() with no argument: split on whitespace runs, no empty
words. -/
def pySplit (s : PyStr) : List PyStr := pySplitAux s []

/-- Python str.strip(): drop leading and trailing whitespace. -/
def pyStrip (s : PyStr) : PyStr :=
  ((s.dropWhile pyWs).reverse.dropWhile pyWs).reverse

/-- Python str.replace (left to right, non-overlapping); the fuel is the
length of the subject, enough since every step consumes at least one
character.  A degenerate empty pattern leaves the subject unchanged (the
source only replaces the pattern Z). -/
def pyReplaceAux (pat rep : PyStr) : Nat → PyStr → PyStr
  | _, [] => []
  | 0, s => s
  | fuel + 1, c :: cs =>
    if pat ≠ [] ∧ pat.isPrefixOf (c :: cs) then
      rep ++ pyReplaceAux pat rep fuel ((c :: cs).drop pat.length)
    else
      c :: pyReplaceAux pat rep fuel cs

/-- Python str.replace. -/
def pyReplace (s pat rep : PyStr) : PyStr := pyReplaceAux pat rep s.length s

/-- Python str lexicographic strict order (by code point). -/
def pyStrLt : PyStr → PyStr → Bool
  | [], [] => false
  | [], _ :: _ => true
  | _ :: _, [] => false
  | a :: as, b :: bs => if a < b then true else if b < a then false else pyStrLt as bs

/-- Python round to an integer: nearest, ties to even. -/
def roundHalfEven (q : ℚ) : ℤ :=
  if q - ⌊q⌋ < 1/2 then ⌊q⌋
  else if (1:ℚ)/2 < q - ⌊q⌋ then ⌊q⌋ + 1
  else if ⌊q⌋ % 2 = 0 then ⌊q⌋ else ⌊q⌋ + 1

/-- Python round(x, n): decimal rounding, ties to even. -/
def pyRound (n : ℕ) (q : ℚ) : ℚ :=
  (roundHalfEven (q * 10 ^ n) : ℚ) / 10 ^ n

/-- Stable insertion step: a goes before the first element it may precede.
With a total preorder test `before`, `insertStable` keeps equal elements in
their original relative order. -/
def insertStable (before : α → α → Bool) (a : α) : List α → List α
  | [] => [a]
  | b :: bs => if before a b then a :: b :: bs else b :: insertStable before a bs

/-- Stable sort (the observable behaviour of Python list.sort, which is
stable): `before a b` = a may be placed before b. -/
def stableSort (before : α → α → Bool) : List α → List α
  | [] => []
  | a :: as => insertStable before a (stableSort before as)

/-- A note record as fetched from the backend (title and content keep the
absent / null / string distinction, which the duplicate finder observes). -/
structure Note where
  id : PyStr
  title : Option (Option PyStr)
  content : Option (Option PyStr)
  created_at : Option PyStr
  category : Option PyStr
deriving DecidableEq, Inhabited

/-- A task record as fetched from the backend. -/
structure Task where
  id : Option PyStr
  title : Option PyStr
  description : Option PyStr
  status : Option PyStr
  priority : Option PyStr
  category : Option PyStr
  due_date : Option PyStr
  created_at : Option PyStr
deriving DecidableEq, Inhabited

/-- Python dict.get with a default, on an absent / null / string field. -/
def pyGet (field : Option (Option PyStr)) (dflt : Option PyStr) : Option PyStr :=
  match field with
  | none => dflt
  | some v => v

/-- Python (x or ""): the empty string when x is None or empty. -/
def pyOrEmpty (v : Option PyStr) : PyStr := v.getD []

/-- Evaluating s1 + " " + s2 when a value may be None: Python raises
TypeError on concatenating None (the payload is modelled as the fixed
message TypeError). -/
def strOrTypeError (v : Option PyStr) : Except PyErr PyStr :=
  match v with
  | some s => Except.ok s
  | none => Except.error "TypeError".data

/-- The fetch outcome of one upstream list request. -/
abbrev Fetch (α : Type) := Except PyErr (Option (List α))

/-- src/tools/productivity_tools.py lines 238-256, calculate_similarity:
combine title and content (lowercased), 0.0 when either stripped text is
empty, else word-set Jaccard ratio.  Accessing a null title or content
raises TypeError out of the function. -/
def calculate_similarity (note1 note2 : Note) : Except PyErr ℚ := do
  let t1 ← strOrTypeError (pyGet note1.title (some []))
  let c1 ← strOrTypeError (pyGet note1.content (some []))
  let text1 := pyLower (t1 ++ [' '] ++ c1)
  let t2 ← strOrTypeError (pyGet note2.title (some []))
  let c2 ← strOrTypeError (pyGet note2.content (some []))
  let text2 := pyLower (t2 ++ [' '] ++ c2)
  if pyStrip text1 = [] ∨ pyStrip text2 = [] then
    return 0
  else
    let words1 : Finset PyStr := (pySplit text1).toFinset
    let words2 : Finset PyStr := (pySplit text2).toFinset
    if words1 = ∅ ∨ words2 = ∅ then
      return 0
    else
      let inter := words1 ∩ words2
      let union := words1 ∪ words2
      if union ≠ ∅ then
        return (inter.card : ℚ) / (union.card : ℚ)
      else
        return 0

/-- The combined lowercase title-plus-content token set of a note, with the
source's defaults for absent fields (the set the spec calls the note's
token set). -/
def tokensOf (n : Note) : Finset PyStr :=
  (pySplit (pyLower (pyOrEmpty (pyGet n.title (some []))
      ++ [' '] ++ pyOrEmpty (pyGet n.content (some []))))).toFinset

/-- The key of the visited-pair set: tuple(sorted([id1, id2])). -/
def pairKey (a b : PyStr) : PyStr × PyStr :=
  if pyStrLt b a then (b, a) else (a, b)

/-- The index pairs (i, j) with i < j < n, in the iteration order of the
nested loop of find_duplicate_notes (outer index ascending, inner index
ascending from i+1). -/
def idxPairs (n : Nat) : List (Nat × Nat) :=
  (List.range n).flatMap (fun i => (List.range' (i + 1) (n - (i + 1))).map (fun j => (i, j)))

/-- One note of a duplicate entry (src/tools/productivity_tools.py lines
275-288; `category` is modelled by the category name the source reads out
of the category object). -/
structure DupNoteInfo where
  id : PyStr
  title : Option PyStr
  content_preview : Option PyStr
  created_at : Option PyStr
  category : Option PyStr
deriving DecidableEq, Inhabited

/-- One duplicate entry: the rounded score and the two note views. -/
structure DupEntry where
  similarity_score : ℚ
  notes : List DupNoteInfo
deriving DecidableEq, Inhabited

/-- Line 278: (note.get('content', '') or '')[:100] + "..." when
len(note.get('content', '') or '') > 100, else note.get('content', '')
(note the missing (or '') in the else branch). -/
def contentPreview (content : Option (Option PyStr)) : Option PyStr :=
  if 100 < (pyOrEmpty (pyGet content (some []))).length then
    some ((pyOrEmpty (pyGet content (some []))).take 100 ++ "...".data)
  else
    pyGet content (some [])

/-- Lines 275-281: the view of one note inside a duplicate entry. -/
def mkDupNoteInfo (n : Note) : DupNoteInfo :=
  { id := n.id
    title := pyGet n.title (some "Untitled".data)
    content_preview := contentPreview n.content
    created_at := n.created_at
    category := n.category }

/-- Lines 272-290: the duplicate entry appended for a pair whose score
reaches the threshold. -/
def mkDupEntry (sim : ℚ) (n1 n2 : Note) : DupEntry :=
  { similarity_score := pyRound 3 sim
    notes := [mkDupNoteInfo n1, mkDupNoteInfo n2] }

/-- Lines 259-291, the pair scan of find_duplicate_notes over the given
index pairs with the visited-pair set: the first component is the list of
index pairs on which calculate_similarity was actually invoked (the scan's
trace), the second the collected duplicate entries, or the exception that
aborted the scan.  A pair whose key is already in the visited set is
skipped; otherwise the key is inserted and the pair is scored; scoring
raises TypeError when a title or content is null, which aborts the whole
loop. -/
def dupScan (thr : ℚ) (notes : List Note) :
    List (Nat × Nat) → Finset (PyStr × PyStr) →
    List (Nat × Nat) × Except PyErr (List DupEntry)
  | [], _ => ([], .ok [])
  | (i, j) :: rest, checked =>
    let n1 := notes.getD i default
    let n2 := notes.getD j default
    let key := pairKey n1.id n2.id
    if key ∈ checked then dupScan thr notes rest checked
    else
      match calculate_similarity n1 n2 with
      | .error e => ([(i, j)], .error e)
      | .ok sim =>
        let res := dupScan thr notes rest (insert key checked)
        ((i, j) :: res.1,
          res.2.map (fun ds => (if thr ≤ sim then [mkDupEntry sim n1 n2] else []) ++ ds))

/-- The index pairs calculate_similarity is invoked on when
find_duplicate_notes runs over `notes`. -/
def scoredPairs (thr : ℚ) (notes : List Note) : List (Nat × Nat) :=
  (dupScan thr notes (idxPairs notes.length) ∅).1

/-- The duplicate entries collected by the scan (before sorting/capping). -/
def duplicatesOf (thr : ℚ) (notes : List Note) : Except PyErr (List DupEntry) :=
  (dupScan thr notes (idxPairs notes.length) ∅).2

/-- Line 293: sort by similarity_score descending (stable, as Python). -/
def sortDupsDesc (ds : List DupEntry) : List DupEntry :=
  stableSort (fun a b => b.similarity_score ≤ a.similarity_score) ds

/-- JSON rendering of one note view of a duplicate entry. -/
def dupNoteInfoToJson (v : DupNoteInfo) : Json :=
  Json.obj [("id".data, Json.str v.id),
    ("title".data, optStr v.title),
    ("content_preview".data, optStr v.content_preview),
    ("created_at".data, optStr v.created_at),
    ("category".data, optStr v.category)]

/-- JSON rendering of one duplicate entry. -/
def dupEntryToJson (e : DupEntry) : Json :=
  Json.obj [("similarity_score".data, Json.num e.similarity_score),
    ("notes".data, Json.arr (e.notes.map dupNoteInfoToJson))]

/-- The message of the AttributeError raised by result.get when the fetch
returned None. -/
def noneGetAttrMsg : PyErr := "NoneType object has no attribute get".data

/-- The try-block of find_duplicate_notes (lines 221-306): resolve the
fetch, early return below 2 notes, scan, sort descending, cap at 20. -/
def findDupBody (fetch : Fetch Note) (thr : ℚ) (genAt : PyStr) :
    Except PyErr Json :=
  match fetch with
  | .error e => .error e
  | .ok none => .error noneGetAttrMsg
  | .ok (some notes) =>
    if notes.length < 2 then
      .ok (Json.obj [("duplicates".data, Json.arr []),
        ("message".data, Json.str "Not enough notes to check for duplicates".data)])
    else
      match (dupScan thr notes (idxPairs notes.length) ∅).2 with
      | .error e => .error e
      | .ok dups =>
        let sorted := sortDupsDesc dups
        .ok (Json.obj [
          ("total_notes_analyzed".data, Json.num notes.length),
          ("similarity_threshold".data, Json.num thr),
          ("duplicate_groups_found".data, Json.num sorted.length),
          ("duplicates".data, Json.arr ((sorted.take 20).map dupEntryToJson)),
          ("generated_at".data, Json.str genAt)])

/-- find_duplicate_notes (lines 202-312): the body's result, or the
structured error object built by the enclosing except clause. -/
def find_duplicate_notes (fetch : Fetch Note) (thr : ℚ) (genAt : PyStr) : Json :=
  match findDupBody fetch thr genAt with
  | .ok j => j
  | .error e =>
    Json.obj [("error".data, Json.str ("Failed to find duplicate notes: ".data ++ e))]

/-- One entry of the overdue / upcoming lists (lines 365-375, plus the
days_overdue key the overdue branch adds; absent keys are rendered by
omitting the field). -/
structure TaskInfo where
  id : Option PyStr
  title : PyStr
  description : PyStr
  status : Option PyStr
  priority : PyStr
  category : Option PyStr
  due_date : PyStr
  days_difference : Int
  days_overdue : Option Int
  created_at : Option PyStr
deriving DecidableEq, Inhabited

/-- Where one task of the overdue report ends up. -/
inductive TaskClass where
  | skip : TaskClass
  | overdue : TaskInfo → TaskClass
  | upcoming : TaskInfo → TaskClass
deriving DecidableEq

/-- Lines 352-385 of get_overdue_tasks_report, for one task: skip tasks with
status done, without a due date (None or empty), or whose due date does not
parse (or does not compare against the aware now, both caught by the inner
try/except); then classify by due_date < now, else due_date ≤ now + 7 days,
else neither.  timedelta.days is floor division by 86400 seconds. -/
def classifyTask (parse : PyStr → Option Int) (now : Int) (t : Task) : TaskClass :=
  if t.status = some "done".data then .skip
  else
    match t.due_date with
    | none => .skip
    | some ds =>
      if ds = [] then .skip
      else
        match parse (pyReplace ds "Z".data "+00:00".data) with
        | none => .skip
        | some due =>
          let info : TaskInfo :=
            { id := t.id
              title := t.title.getD "Untitled".data
              description := t.description.getD []
              status := t.status
              priority := t.priority.getD "medium".data
              category := t.category
              due_date := ds
              days_difference := Int.fdiv (due - now) 86400
              days_overdue := none
              created_at := t.created_at }
          if due < now then
            .overdue { info with days_overdue := some (Int.fdiv (now - due) 86400) }
          else if due ≤ now + 7 * 86400 then
            .upcoming info
          else .skip

/-- The partition loop of get_overdue_tasks_report (lines 352-385): the
overdue and upcoming lists, in iteration order. -/
def classifyTasks (parse : PyStr → Option Int) (now : Int) :
    List Task → List TaskInfo × List TaskInfo
  | [] => ([], [])
  | t :: ts =>
    let rest := classifyTasks parse now ts
    match classifyTask parse now t with
    | .skip => rest
    | .overdue info => (info :: rest.1, rest.2)
    | .upcoming info => (rest.1, info :: rest.2)

/-- Lines 420-440, _generate_task_recommendations (the rule texts embed the
counts rendered in decimal). -/
def generate_task_recommendations (overdue_tasks upcoming_tasks : List TaskInfo) :
    List PyStr :=
  (if 5 < overdue_tasks.length then
    ["You have many overdue tasks. Consider reviewing and prioritizing them.".data]
  else []) ++
  (if overdue_tasks ≠ [] then
    (let hp := overdue_tasks.filter (fun t => t.priority = "high".data)
     if hp ≠ [] then
       ["You have ".data ++ (Nat.repr hp.length).data ++
        " high-priority overdue tasks that need immediate attention.".data]
     else [])
  else []) ++
  (if upcoming_tasks ≠ [] then
    (let urgent := upcoming_tasks.filter (fun t => t.days_difference ≤ 2)
     if urgent ≠ [] then
       ["You have ".data ++ (Nat.repr urgent.length).data ++
        " tasks due within 2 days.".data]
     else [])
  else []) ++
  (if overdue_tasks = [] ∧ upcoming_tasks = [] then
    ["Great job! No overdue or urgent tasks found.".data]
  else [])

/-- JSON rendering of one overdue/upcoming entry (days_overdue appended when
the overdue branch set it, matching dict insertion order). -/
def taskInfoToJson (t : TaskInfo) : Json :=
  Json.obj ([("id".data, optStr t.id),
    ("title".data, Json.str t.title),
    ("description".data, Json.str t.description),
    ("status".data, optStr t.status),
    ("priority".data, Json.str t.priority),
    ("category".data, optStr t.category),
    ("due_date".data, Json.str t.due_date),
    ("days_difference".data, Json.num t.days_difference),
    ("created_at".data, optStr t.created_at)] ++
    (match t.days_overdue with
     | some d => [("days_overdue".data, Json.num d)]
     | none => []))

/-- The try-block of get_overdue_tasks_report (lines 331-412): resolve the
fetch, early return on an empty task list, partition, sort (overdue by
days_overdue descending, upcoming by days_difference ascending, both
stable), summary with the guarded overdue percentage, recommendations. -/
def overdueReportBody (parse : PyStr → Option Int) (now : Int)
    (fetch : Fetch Task) (genAt : PyStr) : Except PyErr Json :=
  match fetch with
  | .error e => .error e
  | .ok none => .error noneGetAttrMsg
  | .ok (some tasks) =>
    if tasks = [] then
      .ok (Json.obj [("overdue_tasks".data, Json.arr []),
        ("upcoming_tasks".data, Json.arr []),
        ("message".data, Json.str "No tasks found".data)])
    else
      let parts := classifyTasks parse now tasks
      let overdueSorted :=
        stableSort (fun a b => b.days_overdue.getD 0 ≤ a.days_overdue.getD 0) parts.1
      let upcomingSorted :=
        stableSort (fun a b => a.days_difference ≤ b.days_difference) parts.2
      let total_active := (tasks.filter (fun t => t.status ≠ some "done".data)).length
      .ok (Json.obj [
        ("summary".data, Json.obj [
          ("total_active_tasks".data, Json.num total_active),
          ("overdue_count".data, Json.num overdueSorted.length),
          ("upcoming_count".data, Json.num upcomingSorted.length),
          ("overdue_percentage".data, Json.num
            (if total_active ≠ 0 then
              pyRound 2 ((overdueSorted.length : ℚ) / (total_active : ℚ) * 100)
            else 0))]),
        ("overdue_tasks".data, Json.arr (overdueSorted.map taskInfoToJson)),
        ("upcoming_tasks".data, Json.arr (upcomingSorted.map taskInfoToJson)),
        ("recommendations".data, Json.arr
          ((generate_task_recommendations overdueSorted upcomingSorted).map Json.str)),
        ("generated_at".data, Json.str genAt)])

/-- get_overdue_tasks_report (lines 314-418): the body's result or the
structured error object of the except clause. -/
def get_overdue_tasks_report (parse : PyStr → Option Int) (now : Int)
    (fetch : Fetch Task) (genAt : PyStr) : Json :=
  match overdueReportBody parse now fetch genAt with
  | .ok j => j
  | .error e =>
    Json.obj [("error".data,
      Json.str ("Failed to generate overdue tasks report: ".data ++ e))]

/-- The inputs of get_productivity_dashboard: the resolved token and the two
fetch outcomes. -/
structure DashFetch where
  token : Option PyStr
  notes : Fetch Note
  tasks : Fetch Task

/-- Python falsiness of the token string (None or empty). -/
def pyFalsy : Option PyStr → Bool
  | none => true
  | some s => s = []

/-- Lines 48-72: each fetch is wrapped in its own try/except; an exception,
a None / non-dict response, or a non-list data payload all degrade to the
empty list. -/
def resolveFetchList : Fetch α → List α
  | .error _ => []
  | .ok none => []
  | .ok (some xs) => xs

/-- Lines 75 and 181: datetime.now(datetime.timezone.utc).  Here `datetime`
is the class imported by `from datetime import datetime`, which has no
attribute `timezone`, so the expression raises AttributeError (the other
tools in the file use the correctly imported `timezone.utc`). -/
def datetimeNowTzUtc : Except PyErr Int :=
  .error "type object datetime.datetime has no attribute timezone".data

/-- Lines 82-89 per note: keep it when created_at is truthy, parses, and the
parsed instant is ≥ start_date (inclusive lower bound); parse or comparison
failures are swallowed by the inner try/except. -/
def noteIsRecent (parse : PyStr → Option Int) (start_date : Int) (n : Note) : Bool :=
  match n.created_at with
  | none => false
  | some s =>
    if s = [] then false
    else
      match parse (pyReplace s "Z".data "+00:00".data) with
      | some t => decide (start_date ≤ t)
      | none => false

/-- Lines 91-98 per task: same trailing-window test on created_at. -/
def taskIsRecent (parse : PyStr → Option Int) (start_date : Int) (t : Task) : Bool :=
  match t.created_at with
  | none => false
  | some s =>
    if s = [] then false
    else
      match parse (pyReplace s "Z".data "+00:00".data) with
      | some ts => decide (start_date ≤ ts)
      | none => false

/-- Lines 78-89: the notes of the trailing window. -/
def recent_notes (parse : PyStr → Option Int) (start_date : Int)
    (notes : List Note) : List Note :=
  notes.filter (noteIsRecent parse start_date)

/-- Lines 91-98: the tasks of the trailing window. -/
def recent_tasks (parse : PyStr → Option Int) (start_date : Int)
    (tasks : List Task) : List Task :=
  tasks.filter (taskIsRecent parse start_date)

/-- Lines 110-111: completed count over total count times 100, 0 for an
empty list (the conditional expression guards the division). -/
def dashCompletionRate (tasks : List Task) : ℚ :=
  if tasks ≠ [] then
    ((tasks.filter (fun t => t.status = some "done".data)).length : ℚ)
      / (tasks.length : ℚ) * 100
  else 0

/-- collections.Counter as an association list in first-occurrence order. -/
def bumpCount : List (PyStr × Nat) → PyStr → List (PyStr × Nat)
  | [], k => [(k, 1)]
  | (k0, c) :: rest, k =>
    if k0 = k then (k0, c + 1) :: rest else (k0, c) :: bumpCount rest k

/-- Counter over a list of keys. -/
def countBy (keys : List PyStr) : List (PyStr × Nat) := keys.foldl bumpCount []

/-- Counter.most_common(n): by count descending, insertion order on ties
(CPython's sort is stable). -/
def mostCommon (n : Nat) (counts : List (PyStr × Nat)) : List (PyStr × Nat) :=
  (stableSort (fun a b => b.2 ≤ a.2) counts).take n

/-- Lines 117-123: the histogram key of a note's category (the category
object's name, Uncategorized for a missing/empty category object). -/
def noteCategoryKey (n : Note) : PyStr :=
  match n.category with
  | some nm => nm
  | none => "Uncategorized".data

/-- Lines 125-129: the histogram key of a task's category string. -/
def taskCategoryKey (t : Task) : PyStr :=
  match t.category with
  | some nm => if nm = [] then "Uncategorized".data else nm
  | none => "Uncategorized".data

/-- The per-day activity table (lines 134-153): a defaultdict in key
insertion order, notes of the window first, then tasks. -/
def bumpDaily (isNote : Bool) : List (PyStr × Nat × Nat) → PyStr → List (PyStr × Nat × Nat)
  | [], k => [(k, if isNote then (1, 0) else (0, 1))]
  | (k0, cn, ct) :: rest, k =>
    if k0 = k then (k0, if isNote then (cn + 1, ct) else (cn, ct + 1)) :: rest
    else (k0, cn, ct) :: bumpDaily isNote rest k

/-- The day key of a record's created_at: parse again, then strftime
(abstract dayKey); unparseable records are skipped by the inner try. -/
def createdDayKey (parse : PyStr → Option Int) (dayKey : Int → PyStr)
    (created_at : Option PyStr) : Option PyStr :=
  match created_at with
  | none => none
  | some s =>
    if s = [] then none
    else (parse (pyReplace s "Z".data "+00:00".data)).map dayKey

/-- Lines 134-153: the daily activity map over the windowed records. -/
def dailyActivity (parse : PyStr → Option Int) (dayKey : Int → PyStr)
    (rnotes : List Note) (rtasks : List Task) : List (PyStr × Nat × Nat) :=
  let afterNotes :=
    (rnotes.filterMap (fun n => createdDayKey parse dayKey n.created_at)).foldl
      (bumpDaily true) []
  (rtasks.filterMap (fun t => createdDayKey parse dayKey t.created_at)).foldl
    (bumpDaily false) afterNotes

/-- Lines 76-187, the dashboard computation from end_date on.  It is
unreachable in the source (the end_date expression raises first), embedded
for completeness; note the second raising now-call at the generated_at
field, and the ZeroDivisionError of the per-day rates when days_back is
0. -/
def dashboardDict (parse : PyStr → Option Int) (dayKey : Int → PyStr)
    (isoFmt : Int → PyStr) (notes : List Note) (tasks : List Task)
    (end_date : Int) (days_back : Int) : Except PyErr Json :=
  let start_date := end_date - days_back * 86400
  let rnotes := recent_notes parse start_date notes
  let rtasks := recent_tasks parse start_date tasks
  let completed := tasks.filter (fun t => t.status = some "done".data)
  let rcompleted := rtasks.filter (fun t => t.status = some "done".data)
  if days_back = 0 then .error "division by zero".data
  else
    match datetimeNowTzUtc with
    | .error e => .error e
    | .ok gen =>
      .ok (Json.obj [
        ("period".data, Json.obj [
          ("days_analyzed".data, Json.num days_back),
          ("start_date".data, Json.str (isoFmt start_date)),
          ("end_date".data, Json.str (isoFmt end_date))]),
        ("summary".data, Json.obj [
          ("total_notes".data, Json.num notes.length),
          ("total_tasks".data, Json.num tasks.length),
          ("recent_notes".data, Json.num rnotes.length),
          ("recent_tasks".data, Json.num rtasks.length),
          ("notes_per_day".data, Json.num (pyRound 2 ((rnotes.length : ℚ) / (days_back : ℚ)))),
          ("tasks_per_day".data, Json.num (pyRound 2 ((rtasks.length : ℚ) / (days_back : ℚ))))]),
        ("task_completion".data, Json.obj [
          ("total_completed".data, Json.num completed.length),
          ("recent_completed".data, Json.num rcompleted.length),
          ("overall_completion_rate".data, Json.num (pyRound 2 (dashCompletionRate tasks))),
          ("recent_completion_rate".data, Json.num (pyRound 2 (dashCompletionRate rtasks))),
          ("status_distribution".data, Json.obj
            ((countBy (tasks.map (fun t => t.status.getD "unknown".data))).map
              (fun kv => (kv.1, Json.num kv.2))))]),
        ("categories".data, Json.obj [
          ("note_categories".data, Json.obj
            ((mostCommon 10 (countBy (notes.map noteCategoryKey))).map
              (fun kv => (kv.1, Json.num kv.2)))),
          ("task_categories".data, Json.obj
            ((mostCommon 10 (countBy (tasks.map taskCategoryKey))).map
              (fun kv => (kv.1, Json.num kv.2))))]),
        ("daily_activity".data, Json.obj
          ((dailyActivity parse dayKey rnotes rtasks).map
            (fun kv => (kv.1, Json.obj [("notes".data, Json.num kv.2.1),
              ("tasks".data, Json.num kv.2.2)])))),
        ("generated_at".data, Json.str (isoFmt gen))])

/-- The try-block of get_productivity_dashboard (lines 41-187): token
check (an early structured return, not an exception), per-fetch degradation
to empty lists, then the date-range computation whose first expression
raises AttributeError. -/
def dashboardBody (parse : PyStr → Option Int) (dayKey : Int → PyStr)
    (isoFmt : Int → PyStr) (env : DashFetch) (days_back : Int) :
    Except PyErr Json :=
  if pyFalsy env.token then
    .ok (Json.obj [("error".data,
      Json.str "Failed to get valid authentication token".data)])
  else
    let notes := resolveFetchList env.notes
    let tasks := resolveFetchList env.tasks
    match datetimeNowTzUtc with
    | .error e => .error e
    | .ok end_date => dashboardDict parse dayKey isoFmt notes tasks end_date days_back

/-- get_productivity_dashboard (lines 22-200): the body's result or the
structured error object of the except clause. -/
def get_productivity_dashboard (parse : PyStr → Option Int)
    (dayKey : Int → PyStr) (isoFmt : Int → PyStr) (env : DashFetch)
    (days_back : Int) : Json :=
  match dashboardBody parse dayKey isoFmt env days_back with
  | .ok j => j
  | .error e =>
    Json.obj [("error".data,
      Json.str ("Failed to generate productivity dashboard: ".data ++ e))]

/-- The try-block of get_task_statistics (src/tools/tasks_tools.py lines
276-303): counts by status and the guarded completion percentage (rounded
to 1 decimal), appended to the stats dict. -/
def statsBody (fetch : Fetch Task) : Except PyErr Json :=
  match fetch with
  | .error e => .error e
  | .ok none => .error noneGetAttrMsg
  | .ok (some tasks) =>
    let total := tasks.length
    let todo := (tasks.filter (fun t => t.status = some "todo".data)).length
    let in_progress := (tasks.filter (fun t => t.status = some "in_progress".data)).length
    let done := (tasks.filter (fun t => t.status = some "done".data)).length
    .ok (Json.obj [
      ("total".data, Json.num total),
      ("todo".data, Json.num todo),
      ("in_progress".data, Json.num in_progress),
      ("done".data, Json.num done),
      ("completion_percentage".data, Json.num
        (if 0 < total then pyRound 1 ((done : ℚ) / (total : ℚ) * 100) else 0))])

/-- get_task_statistics (src/tools/tasks_tools.py lines 259-309): the
body's result or the structured error object of the except clause. -/
def get_task_statistics (fetch : Fetch Task) : Json :=
  match statsBody fetch with
  | .ok j => j
  | .error e =>
    Json.obj [("error".data,
      Json.str ("Failed to get task statistics: ".data ++ e))]

/-- Line 496: the stop-word set of the content insights. -/
def commonWords : List PyStr :=
  ["the".data, "a".data, "an".data, "and".data, "or".data, "but".data,
   "in".data, "on".data, "at".data, "to".data, "for".data, "of".data,
   "with".data, "by".data, "is".data, "are".data, "was".data, "were".data,
   "be".data, "been".data, "have".data, "has".data, "had".data, "do".data,
   "does".data, "did".data, "will".data, "would".data, "could".data,
   "should".data, "may".data, "might".data, "can".data, "this".data,
   "that".data, "these".data, "those".data, "i".data, "you".data, "he".data,
   "she".data, "it".data, "we".data, "they".data, "me".data, "him".data,
   "her".data, "us".data, "them".data]

/-- Lines 484-489: the combined lowercase text of one note of the content
insights (the string defaults make this total). -/
def insightText (n : Note) : PyStr :=
  pyLower (pyOrEmpty (pyGet n.title (some [])) ++ [' ']
    ++ pyOrEmpty (pyGet n.content (some [])))

/-- Lines 538-540 read the raw content words (content only, not lowered). -/
def contentWordCount (n : Note) : Nat :=
  (pySplit (pyOrEmpty (pyGet n.content (some [])))).length

/-- The try-block of get_content_insights (lines 459-548): early return on
an empty note list, else word/character statistics, topic frequencies,
length distribution and writing patterns. -/
def insightsBody (fetch : Fetch Note) (genAt : PyStr) : Except PyErr Json :=
  match fetch with
  | .error e => .error e
  | .ok none => .error noneGetAttrMsg
  | .ok (some notes) =>
    if notes = [] then
      .ok (Json.obj [("insights".data, Json.obj []),
        ("message".data, Json.str "No notes found to analyze".data)])
    else
      let total_notes := notes.length
      let note_lengths := notes.map (fun n => (pySplit (insightText n)).length)
      let total_words := note_lengths.sum
      let total_chars := (notes.map (fun n => (insightText n).length)).sum
      let word_frequency := countBy
        ((notes.flatMap (fun n => pySplit (insightText n))).filter
          (fun w => 2 < w.length ∧ w ∉ commonWords))
      let categories := countBy (notes.map (fun n => n.category.getD "Uncategorized".data))
      let avg_words : ℚ := (total_words : ℚ) / (total_notes : ℚ)
      let avg_chars : ℚ := (total_chars : ℚ) / (total_notes : ℚ)
      let sortedLengths := stableSort (fun a b => a ≤ b) note_lengths
      let median := sortedLengths.getD (sortedLengths.length / 2) 0
      let shortest := sortedLengths.headD 0
      let longest := sortedLengths.getLastD 0
      .ok (Json.obj [
        ("content_statistics".data, Json.obj [
          ("total_notes".data, Json.num total_notes),
          ("total_words".data, Json.num total_words),
          ("total_characters".data, Json.num total_chars),
          ("average_words_per_note".data, Json.num (pyRound 2 avg_words)),
          ("average_characters_per_note".data, Json.num (pyRound 2 avg_chars))]),
        ("note_length_distribution".data, Json.obj [
          ("shortest_note_words".data, Json.num shortest),
          ("longest_note_words".data, Json.num longest),
          ("median_note_words".data, Json.num median),
          ("average_note_words".data, Json.num (pyRound 2 avg_words))]),
        ("top_topics".data, Json.obj
          ((mostCommon 20 word_frequency).map (fun kv => (kv.1, Json.num kv.2)))),
        ("category_distribution".data, Json.obj
          (categories.map (fun kv => (kv.1, Json.num kv.2)))),
        ("writing_patterns".data, Json.obj [
          ("notes_with_no_content".data, Json.num
            ((notes.filter (fun n =>
              pyStrip (pyOrEmpty (pyGet n.content (some []))) = [])).length : ℚ)),
          ("notes_with_long_content".data, Json.num
            ((notes.filter (fun n =>
              avg_words * 2 < (contentWordCount n : ℚ))).length : ℚ)),
          ("notes_with_short_content".data, Json.num
            ((notes.filter (fun n =>
              (contentWordCount n : ℚ) < avg_words / 2)).length : ℚ))]),
        ("generated_at".data, Json.str genAt)])

/-- get_content_insights (lines 442-554): the body's result or the
structured error object of the except clause. -/
def get_content_insights (fetch : Fetch Note) (genAt : PyStr) : Json :=
  match insightsBody fetch genAt with
  | .ok j => j
  | .error e =>
    Json.obj [("error".data,
      Json.str ("Failed to generate content insights: ".data ++ e))]

/-! ## Properties of the similarity scorer -/

lemma strOrTypeError_ok_iff {v : Option PyStr} {s : PyStr} :
    strOrTypeError v = .ok s ↔ v = some s := by
  cases v <;> simp [strOrTypeError]

lemma calcSim_comm (A B : Note) :
    calculate_similarity A B = calculate_similarity B A := by
  unfold calculate_similarity
  cases hA1 : pyGet A.title (some []) <;> cases hA2 : pyGet A.content (some []) <;>
    cases hB1 : pyGet B.title (some []) <;> cases hB2 : pyGet B.content (some []) <;>
      simp only [strOrTypeError, Bind.bind, Except.bind, pure, Except.pure]
  refine if_congr (or_comm ..) rfl (if_congr (or_comm ..) rfl ?_)
  refine if_congr ?_ ?_ rfl
  · rw [Finset.union_comm]
  · rw [Finset.inter_comm, Finset.union_comm]

lemma calcSim_ok_bounds (A B : Note) (q : ℚ)
    (h : calculate_similarity A B = .ok q) : 0 ≤ q ∧ q ≤ 1 := by
  unfold calculate_similarity at h
  cases hA1 : pyGet A.title (some []) <;> rw [hA1] at h <;>
    cases hA2 : pyGet A.content (some []) <;> rw [hA2] at h <;>
    cases hB1 : pyGet B.title (some []) <;> rw [hB1] at h <;>
    cases hB2 : pyGet B.content (some []) <;> rw [hB2] at h <;>
    simp only [strOrTypeError, Bind.bind, Except.bind, pure, Except.pure] at h <;>
    try exact Except.noConfusion h
  split_ifs at h with h1 h2 h3 <;>
    simp only [Except.ok.injEq] at h <;> subst h
  · exact ⟨le_refl 0, by norm_num⟩
  · exact ⟨le_refl 0, by norm_num⟩
  · constructor
    · positivity
    · rw [div_le_one]
      · exact_mod_cast Finset.card_le_card Finset.inter_subset_union
      · have hne := Finset.nonempty_iff_ne_empty.mpr h3
        exact_mod_cast Finset.card_pos.mpr hne
  · exact ⟨le_refl 0, by norm_num⟩

lemma calcSim_ok_empty (A B : Note) (q : ℚ)
    (h : calculate_similarity A B = .ok q)
    (he : tokensOf A = ∅ ∨ tokensOf B = ∅) : q = 0 := by
  unfold calculate_similarity at h
  cases hA1 : pyGet A.title (some []) <;> rw [hA1] at h <;>
    cases hA2 : pyGet A.content (some []) <;> rw [hA2] at h <;>
    cases hB1 : pyGet B.title (some []) <;> rw [hB1] at h <;>
    cases hB2 : pyGet B.content (some []) <;> rw [hB2] at h <;>
    simp only [strOrTypeError, Bind.bind, Except.bind, pure, Except.pure] at h <;>
    try exact Except.noConfusion h
  rename_i tA cA tB cB
  have htokA : tokensOf A = (pySplit (pyLower (tA ++ [' '] ++ cA))).toFinset := by
    simp [tokensOf, hA1, hA2, pyOrEmpty]
  have htokB : tokensOf B = (pySplit (pyLower (tB ++ [' '] ++ cB))).toFinset := by
    simp [tokensOf, hB1, hB2, pyOrEmpty]
  rw [htokA, htokB] at he
  split_ifs at h with h1 <;>
    simp only [Except.ok.injEq] at h <;> subst h <;> rfl

/-- C5: the word-overlap similarity score of find_duplicate_notes is
symmetric, every returned score lies in the interval from 0 to 1, and the
returned score is 0 when either note's combined title-plus-content token
set is empty. -/
theorem claim_C5_similarity_symmetric_bounded :
    (∀ A B : Note, calculate_similarity A B = calculate_similarity B A) ∧
    (∀ (A B : Note) (q : ℚ), calculate_similarity A B = .ok q → 0 ≤ q ∧ q ≤ 1) ∧
    (∀ (A B : Note) (q : ℚ), calculate_similarity A B = .ok q →
      tokensOf A = ∅ ∨ tokensOf B = ∅ → q = 0) :=
  ⟨calcSim_comm, calcSim_ok_bounds, calcSim_ok_empty⟩

/-! ## Properties of the pair scan -/

lemma count_one_of_nodup_mem {α : Type _} [BEq α] [LawfulBEq α] {l : List α} {a : α}
    (h : l.Nodup) (ha : a ∈ l) : l.count a = 1 := by
  induction l with
  | nil => exact absurd ha (List.not_mem_nil _)
  | cons b l ih =>
    rw [List.count_cons]
    rcases List.mem_cons.mp ha with rfl | hmem
    · have : l.count a = 0 := List.count_eq_zero.mpr (List.nodup_cons.mp h).1
      simp [this]
    · have hne : b ≠ a := fun hc => (List.nodup_cons.mp h).1 (hc ▸ hmem)
      rw [ih (List.nodup_cons.mp h).2 hmem]
      simpa using hne

lemma mem_idxPairs {n : ℕ} {p : ℕ × ℕ} :
    p ∈ idxPairs n ↔ p.1 < p.2 ∧ p.2 < n := by
  obtain ⟨i, j⟩ := p
  unfold idxPairs
  simp only [List.mem_flatMap, List.mem_range, List.mem_map, List.mem_range'_1,
    Prod.mk.injEq]
  constructor
  · rintro ⟨a, ha, b, ⟨hb1, hb2⟩, rfl, rfl⟩
    exact ⟨by omega, by omega⟩
  · rintro ⟨h1, h2⟩
    exact ⟨i, by omega, j, ⟨by omega, by omega⟩, rfl, rfl⟩

lemma nodup_idxPairs (n : ℕ) : (idxPairs n).Nodup := by
  unfold idxPairs
  rw [List.nodup_flatMap]
  constructor
  · intro i _
    exact (List.nodup_range' ..).map (fun j k h => by simpa using h)
  · have hlt : (List.range n).Pairwise (· < ·) := List.pairwise_lt_range ..
    refine hlt.imp ?_
    intro a b hab
    intro x hxa hxb
    simp only [Function.comp, List.mem_map] at hxa hxb
    obtain ⟨j1, _, rfl⟩ := hxa
    obtain ⟨j2, _, h2⟩ := hxb
    exact absurd (congrArg Prod.fst h2).symm (Nat.ne_of_lt hab)

lemma pairKey_eq_cases {a b c d : PyStr} (h : pairKey a b = pairKey c d) :
    (a = c ∧ b = d) ∨ (a = d ∧ b = c) := by
  unfold pairKey at h
  split_ifs at h <;> simp only [Prod.mk.injEq] at h
  · exact Or.inl ⟨h.2, h.1⟩
  · exact Or.inr ⟨h.2, h.1⟩
  · exact Or.inr ⟨h.1, h.2⟩
  · exact Or.inl ⟨h.1, h.2⟩

/-- The visited-set key the scan computes for the index pair p. -/
def keyAt (notes : List Note) (p : ℕ × ℕ) : PyStr × PyStr :=
  pairKey (notes.getD p.1 default).id (notes.getD p.2 default).id

lemma id_getD_inj (notes : List Note) (hnd : (notes.map Note.id).Nodup)
    {i j : ℕ} (hi : i < notes.length) (hj : j < notes.length)
    (h : (notes.getD i default).id = (notes.getD j default).id) : i = j := by
  rw [List.getD_eq_getElem _ _ hi, List.getD_eq_getElem _ _ hj] at h
  have hi' : i < (notes.map Note.id).length := by simpa using hi
  have hj' : j < (notes.map Note.id).length := by simpa using hj
  have hmap : (notes.map Note.id)[i] = (notes.map Note.id)[j] := by
    simpa using h
  have hinj := List.nodup_iff_injective_getElem.mp hnd
  have := @hinj ⟨i, hi'⟩ ⟨j, hj'⟩ hmap
  exact congrArg Fin.val this

lemma keyAt_inj (notes : List Note) (hnd : (notes.map Note.id).Nodup)
    {p q : ℕ × ℕ} (hp : p ∈ idxPairs notes.length) (hq : q ∈ idxPairs notes.length)
    (h : keyAt notes p = keyAt notes q) : p = q := by
  obtain ⟨hp1, hp2⟩ := mem_idxPairs.mp hp
  obtain ⟨hq1, hq2⟩ := mem_idxPairs.mp hq
  rcases pairKey_eq_cases h with ⟨h1, h2⟩ | ⟨h1, h2⟩
  · have e1 := id_getD_inj notes hnd (by omega) (by omega) h1
    have e2 := id_getD_inj notes hnd (by omega) (by omega) h2
    exact Prod.ext e1 e2
  · -- crossed case: p.1 = q.2 and p.2 = q.1 give p.1 < p.2 = q.1 < q.2 = p.1
    have e1 := id_getD_inj notes hnd (by omega) (by omega) h1
    have e2 := id_getD_inj notes hnd (by omega) (by omega) h2
    exact absurd (show p.1 < p.1 by omega) (lt_irrefl _)

lemma dupScan_trace (thr : ℚ) (notes : List Note) :
    ∀ (ps : List (ℕ × ℕ)) (checked : Finset (PyStr × PyStr)),
      ps.Pairwise (fun p q => keyAt notes p ≠ keyAt notes q) →
      (∀ p ∈ ps, keyAt notes p ∉ checked) →
      (∀ p ∈ ps,
        (calculate_similarity (notes.getD p.1 default) (notes.getD p.2 default)).isOk) →
      (dupScan thr notes ps checked).1 = ps := by
  intro ps
  induction ps with
  | nil => intro checked _ _ _; rfl
  | cons p rest ih =>
    intro checked hpair hchk hok
    obtain ⟨i, j⟩ := p
    have hkey : pairKey (notes.getD i default).id (notes.getD j default).id ∉ checked :=
      hchk (i, j) (List.mem_cons_self ..)
    have hsim := hok (i, j) (List.mem_cons_self ..)
    have hrest : (dupScan thr notes rest
        (insert (pairKey (notes.getD i default).id (notes.getD j default).id) checked)).1
        = rest := by
      apply ih
      · exact hpair.sublist (List.sublist_cons_self ..)
      · intro q hq
        rw [Finset.mem_insert]
        push_neg
        refine ⟨?_, hchk q (List.mem_cons_of_mem _ hq)⟩
        exact fun hcontra => (List.rel_of_pairwise_cons hpair hq) hcontra.symm
      · exact fun q hq => hok q (List.mem_cons_of_mem _ hq)
    cases hsimv : calculate_similarity (notes.getD i default) (notes.getD j default) with
    | error e =>
      rw [hsimv] at hsim
      exact absurd hsim (by simp [Except.isOk, Except.toBool])
    | ok sim =>
      simp only [dupScan]
      rw [if_neg hkey, hsimv]
      simpa using hrest

/-- C4: over a fetched note set with pairwise-distinct ids, and whenever
the scan completes without raising (similarity never raises TypeError),
find_duplicate_notes invokes the similarity scorer on exactly the index
pairs (i, j) with i < j: every unordered pair of distinct notes is scored
exactly once, independent of iteration order, and no note is ever paired
with itself. -/
theorem claim_C4_each_pair_scored_once (thr : ℚ) (notes : List Note)
    (hnd : (notes.map Note.id).Nodup)
    (hok : ∀ p ∈ idxPairs notes.length,
      (calculate_similarity (notes.getD p.1 default) (notes.getD p.2 default)).isOk) :
    scoredPairs thr notes = idxPairs notes.length ∧
    (∀ i j : ℕ, i < j → j < notes.length →
      (scoredPairs thr notes).count (i, j) = 1 ∧
      (scoredPairs thr notes).count (j, i) = 0) ∧
    (∀ i : ℕ, (i, i) ∉ scoredPairs thr notes) := by
  have htrace : scoredPairs thr notes = idxPairs notes.length := by
    unfold scoredPairs
    refine dupScan_trace thr notes (idxPairs notes.length) ∅ ?_ ?_ hok
    · have hnodup := nodup_idxPairs notes.length
      refine hnodup.imp_of_mem ?_
      intro p q hp hq hne hkey
      exact hne (keyAt_inj notes hnd hp hq hkey)
    · intro p _
      exact Finset.not_mem_empty _
  refine ⟨htrace, ?_, ?_⟩
  · intro i j hij hjn
    rw [htrace]
    constructor
    · exact count_one_of_nodup_mem (nodup_idxPairs _)
        ((mem_idxPairs (p := (i, j))).mpr ⟨hij, hjn⟩)
    · rw [List.count_eq_zero]
      intro hmem
      have := mem_idxPairs.mp hmem
      omega
  · intro i hmem
    rw [htrace] at hmem
    have := mem_idxPairs.mp hmem
    omega

/-- A concrete note pair: texts "x y z" and "x w", one shared token. -/
def wNoteA : Note :=
  { id := "a".data, title := some (some "x".data), content := some (some "y z".data),
    created_at := none, category := none }

/-- The partner of wNoteA (distinct id, one shared token). -/
def wNoteB : Note :=
  { id := "b".data, title := some (some "x".data), content := some (some "w".data),
    created_at := none, category := none }

/-- Witness for C5: at the notes wNoteA and wNoteB the scorer returns the
Jaccard ratio 1/4, which the theorem places between 0 and 1. -/
theorem claim_C5_witness :
    0 ≤ ((1:ℕ):ℚ) / ((4:ℕ):ℚ) ∧ ((1:ℕ):ℚ) / ((4:ℕ):ℚ) ≤ 1 :=
  claim_C5_similarity_symmetric_bounded.2.1 wNoteA wNoteB
    (((1:ℕ):ℚ) / ((4:ℕ):ℚ)) rfl

/-- Witness for C4: on the two-note list the scan scores exactly the index
pair (0, 1), once, and never a diagonal pair. -/
theorem claim_C4_witness :
    scoredPairs (4/5) [wNoteA, wNoteB] = idxPairs 2 ∧
    (∀ i j : ℕ, i < j → j < 2 →
      (scoredPairs (4/5) [wNoteA, wNoteB]).count (i, j) = 1 ∧
      (scoredPairs (4/5) [wNoteA, wNoteB]).count (j, i) = 0) ∧
    (∀ i : ℕ, (i, i) ∉ scoredPairs (4/5) [wNoteA, wNoteB]) :=
  claim_C4_each_pair_scored_once (4/5) [wNoteA, wNoteB] (by decide) (by decide)

/-! ## Bounds on Python rounding -/

lemma roundHalfEven_nonneg {q : ℚ} (h : 0 ≤ q) : 0 ≤ roundHalfEven q := by
  have hf : (0:ℤ) ≤ ⌊q⌋ := Int.floor_nonneg.mpr h
  unfold roundHalfEven
  split_ifs <;> omega

lemma roundHalfEven_le {q : ℚ} {m : ℤ} (h : q ≤ m) : roundHalfEven q ≤ m := by
  have hfm : ⌊q⌋ ≤ m := by
    have hle := Int.floor_le_floor h
    simpa using hle
  have hlt : (1:ℚ)/2 ≤ q - ⌊q⌋ → ⌊q⌋ < m := by
    intro h2
    by_contra hcon
    push_neg at hcon
    have hmq : (m:ℚ) ≤ (⌊q⌋:ℚ) := by exact_mod_cast hcon
    linarith
  unfold roundHalfEven
  split_ifs with h1 h2 h3
  · exact hfm
  · have := hlt (le_of_lt h2)
    omega
  · exact hfm
  · have := hlt (not_lt.mp h1)
    omega

lemma pyRound_nonneg (n : ℕ) {q : ℚ} (h : 0 ≤ q) : 0 ≤ pyRound n q := by
  unfold pyRound
  have h1 : (0:ℤ) ≤ roundHalfEven (q * 10 ^ n) :=
    roundHalfEven_nonneg (by positivity)
  have h2 : (0:ℚ) ≤ (roundHalfEven (q * 10 ^ n) : ℚ) := by exact_mod_cast h1
  positivity

lemma pyRound_le_int (n : ℕ) {q : ℚ} {m : ℤ} (h : q ≤ m) : pyRound n q ≤ m := by
  unfold pyRound
  rw [div_le_iff₀ (by positivity)]
  have h1 : q * 10 ^ n ≤ ((m * 10 ^ n : ℤ) : ℚ) := by
    push_cast
    exact mul_le_mul_of_nonneg_right h (by positivity)
  have h2 := roundHalfEven_le h1
  calc (roundHalfEven (q * 10 ^ n) : ℚ) ≤ ((m * 10 ^ n : ℤ) : ℚ) := by exact_mod_cast h2
    _ = (m : ℚ) * 10 ^ n := by push_cast; ring

/-! ## Properties of the overdue/upcoming classifier -/

lemma length_insertStable (before : α → α → Bool) (a : α) (l : List α) :
    (insertStable before a l).length = l.length + 1 := by
  induction l with
  | nil => rfl
  | cons b bs ih =>
    unfold insertStable
    split
    · simp
    · simp [ih]

lemma length_stableSort (before : α → α → Bool) (l : List α) :
    (stableSort before l).length = l.length := by
  induction l with
  | nil => rfl
  | cons a as ih => simp [stableSort, length_insertStable, ih]

/-- The due instant the report can compare a task against now: none when
the task has no due date (absent, null or empty) or when parsing (or the
aware comparison) fails. -/
def taskDue (parse : PyStr → Option Int) (t : Task) : Option Int :=
  match t.due_date with
  | none => none
  | some ds => if ds = [] then none else parse (pyReplace ds "Z".data "+00:00".data)

lemma classifyTask_char (parse : PyStr → Option Int) (now : Int) (t : Task) :
    (classifyTask parse now t = .skip ↔
      t.status = some "done".data ∨ taskDue parse t = none ∨
      (∃ d, taskDue parse t = some d ∧ now + 7 * 86400 < d)) ∧
    ((∃ info, classifyTask parse now t = .overdue info) ↔
      t.status ≠ some "done".data ∧ ∃ d, taskDue parse t = some d ∧ d < now) ∧
    ((∃ info, classifyTask parse now t = .upcoming info) ↔
      t.status ≠ some "done".data ∧
        ∃ d, taskDue parse t = some d ∧ now ≤ d ∧ d ≤ now + 7 * 86400) := by
  unfold classifyTask taskDue
  split_ifs with hdone
  · simp [hdone]
  · cases hdd : t.due_date with
    | none => simp [hdone]
    | some ds =>
      dsimp only
      split_ifs with hempty
      · simp [hdone, hempty]
      · cases hp : parse (pyReplace ds "Z".data "+00:00".data) with
        | none => simp [hdone]
        | some due =>
          dsimp only
          split_ifs with hlt hle <;>
            refine ⟨?_, ?_, ?_⟩ <;>
            simp [hdone] <;>
            omega

lemma classifyTasks_eq_filterMap (parse : PyStr → Option Int) (now : Int)
    (tasks : List Task) :
    classifyTasks parse now tasks =
      (tasks.filterMap (fun t =>
        match classifyTask parse now t with | .overdue i => some i | _ => none),
       tasks.filterMap (fun t =>
        match classifyTask parse now t with | .upcoming i => some i | _ => none)) := by
  induction tasks with
  | nil => rfl
  | cons t ts ih =>
    unfold classifyTasks
    rw [ih]
    cases h : classifyTask parse now t <;> simp [List.filterMap_cons, h]

/-- C6: get_overdue_tasks_report partitions the fetched tasks: done tasks,
tasks without a due date and tasks with an unparseable due date land in
neither list; a remaining task is overdue exactly when its due instant is
before now, upcoming exactly when it lies between now and now plus 7 days
(inclusive), and otherwise lands in neither list; the two output lists are
exactly the overdue / upcoming projections of that per-task
classification in fetch order. -/
theorem claim_C6_overdue_partition :
    (∀ (parse : PyStr → Option Int) (now : Int) (t : Task),
      (classifyTask parse now t = .skip ↔
        t.status = some "done".data ∨ taskDue parse t = none ∨
        (∃ d, taskDue parse t = some d ∧ now + 7 * 86400 < d)) ∧
      ((∃ info, classifyTask parse now t = .overdue info) ↔
        t.status ≠ some "done".data ∧ ∃ d, taskDue parse t = some d ∧ d < now) ∧
      ((∃ info, classifyTask parse now t = .upcoming info) ↔
        t.status ≠ some "done".data ∧
          ∃ d, taskDue parse t = some d ∧ now ≤ d ∧ d ≤ now + 7 * 86400)) ∧
    (∀ (parse : PyStr → Option Int) (now : Int) (tasks : List Task),
      classifyTasks parse now tasks =
        (tasks.filterMap (fun t =>
          match classifyTask parse now t with | .overdue i => some i | _ => none),
         tasks.filterMap (fun t =>
          match classifyTask parse now t with | .upcoming i => some i | _ => none))) :=
  ⟨classifyTask_char, classifyTasks_eq_filterMap⟩

/-! ## Properties of the dashboard window filter -/

/-- C7: the dashboard's trailing-window filter has an inclusive lower
bound: a note whose parsed creation instant is exactly days_back days
before the reference now is kept by the filter over start_date = now -
days_back days, and one created days_back + 1 days before is not. -/
theorem claim_C7_window_inclusive_lower_bound (parse : PyStr → Option Int)
    (now days_back : Int) (notes : List Note) (n : Note) (s : PyStr) (t : Int)
    (hmem : n ∈ notes) (hca : n.created_at = some s) (hne : s ≠ [])
    (hp : parse (pyReplace s "Z".data "+00:00".data) = some t) :
    (t = now - days_back * 86400 →
      n ∈ recent_notes parse (now - days_back * 86400) notes) ∧
    (t = now - (days_back + 1) * 86400 →
      n ∉ recent_notes parse (now - days_back * 86400) notes) := by
  constructor
  · intro ht
    refine List.mem_filter.mpr ⟨hmem, ?_⟩
    simp [noteIsRecent, hca, hne, hp, ht]
  · intro ht hin
    have hkeep := (List.mem_filter.mp hin).2
    simp [noteIsRecent, hca, hne, hp, ht] at hkeep
    omega

/-- A note created at instant 0 with a truthy created_at field. -/
def w7note : Note :=
  { id := "n".data, title := none, content := none,
    created_at := some "c".data, category := none }

/-- Witness for C7: with now = 7 days and days_back = 7, the note created
at instant 0 (exactly days_back days before now) is kept, and it would be
dropped were it one day older than the window start. -/
theorem claim_C7_witness :
    ((0:ℤ) = 7 * 86400 - 7 * 86400 →
      w7note ∈ recent_notes (fun _ => some 0) (7 * 86400 - 7 * 86400) [w7note]) ∧
    ((0:ℤ) = 7 * 86400 - (7 + 1) * 86400 →
      w7note ∉ recent_notes (fun _ => some 0) (7 * 86400 - 7 * 86400) [w7note]) :=
  claim_C7_window_inclusive_lower_bound (fun _ => some 0) (7 * 86400) 7 [w7note]
    w7note "c".data 0 (List.mem_cons_self ..) rfl (by decide) rfl

lemma overdue_le_active (parse : PyStr → Option Int) (now : Int) (tasks : List Task) :
    (classifyTasks parse now tasks).1.length ≤
      (tasks.filter (fun t => t.status ≠ some "done".data)).length := by
  induction tasks with
  | nil => simp [classifyTasks]
  | cons t ts ih =>
    have hmono : (ts.filter (fun t => t.status ≠ some "done".data)).length ≤
        ((t :: ts).filter (fun t => t.status ≠ some "done".data)).length := by
      rw [List.filter_cons]
      split <;> simp
    cases hc : classifyTask parse now t with
    | skip =>
      simp only [classifyTasks, hc]
      exact le_trans ih hmono
    | overdue info =>
      have hst : t.status ≠ some "done".data :=
        (((classifyTask_char parse now t).2.1).mp ⟨info, hc⟩).1
      simp only [classifyTasks, hc, List.filter_cons]
      rw [if_pos (by simpa using hst)]
      simpa using ih
    | upcoming info =>
      simp only [classifyTasks, hc]
      exact le_trans ih hmono

/-- C9: in get_overdue_tasks_report's summary, overdue_percentage is the
overdue count over the active (non-done) count times 100, rounded to 2
decimals, is 0 when there is no active task (the division is guarded), and
always lies between 0 and 100. -/
theorem claim_C9_overdue_percentage_guarded (parse : PyStr → Option Int)
    (now : Int) (tasks : List Task) (genAt : PyStr) (hne : tasks ≠ []) :
    ∃ pct : ℚ,
      ((get_overdue_tasks_report parse now (.ok (some tasks)) genAt).get
          "summary".data).bind (fun s => s.get "overdue_percentage".data)
        = some (Json.num pct) ∧
      pct = (if (tasks.filter (fun t => t.status ≠ some "done".data)).length ≠ 0 then
          pyRound 2 (((classifyTasks parse now tasks).1.length : ℚ) /
            ((tasks.filter (fun t => t.status ≠ some "done".data)).length : ℚ) * 100)
        else 0) ∧
      ((tasks.filter (fun t => t.status ≠ some "done".data)).length = 0 → pct = 0) ∧
      0 ≤ pct ∧ pct ≤ 100 := by
  have hsortlen : (stableSort
      (fun a b => b.days_overdue.getD 0 ≤ a.days_overdue.getD 0)
      (classifyTasks parse now tasks).1).length
      = (classifyTasks parse now tasks).1.length := length_stableSort ..
  have hlook : ((get_overdue_tasks_report parse now (.ok (some tasks)) genAt).get
      "summary".data).bind (fun s => s.get "overdue_percentage".data)
      = some (Json.num
        (if (tasks.filter (fun t => t.status ≠ some "done".data)).length ≠ 0 then
          pyRound 2 (((stableSort
              (fun a b => b.days_overdue.getD 0 ≤ a.days_overdue.getD 0)
              (classifyTasks parse now tasks).1).length : ℚ) /
            ((tasks.filter (fun t => t.status ≠ some "done".data)).length : ℚ) * 100)
        else 0)) := by
    unfold get_overdue_tasks_report overdueReportBody
    dsimp only
    rw [if_neg hne]
    rfl
  rw [hsortlen] at hlook
  refine ⟨_, hlook, rfl, ?_, ?_, ?_⟩
  · intro h0
    rw [if_neg (not_not_intro h0)]
  · split_ifs with hact
    · exact pyRound_nonneg 2 (by positivity)
    · exact le_refl 0
  · split_ifs with hact
    · have hlen := overdue_le_active parse now tasks
      have hcast : ((classifyTasks parse now tasks).1.length : ℚ) ≤
          ((tasks.filter (fun t => t.status ≠ some "done".data)).length : ℚ) := by
        exact_mod_cast hlen
      have hpos : (0:ℚ) <
          ((tasks.filter (fun t => t.status ≠ some "done".data)).length : ℚ) := by
        have := Nat.pos_of_ne_zero hact
        exact_mod_cast this
      have hratio : ((classifyTasks parse now tasks).1.length : ℚ) /
          ((tasks.filter (fun t => t.status ≠ some "done".data)).length : ℚ) * 100
          ≤ ((100 : ℤ) : ℚ) := by
        rw [div_mul_eq_mul_div, div_le_iff₀ hpos]
        push_cast
        nlinarith
      have := pyRound_le_int 2 hratio
      exact_mod_cast this
    · norm_num

/-- A lone active task without a due date. -/
def w9task : Task :=
  { id := none, title := none, description := none, status := some "todo".data,
    priority := none, category := none, due_date := none, created_at := none }

/-- Witness for C9: the report over one active task emits the guarded
percentage field. -/
theorem claim_C9_witness :
    ∃ pct : ℚ,
      ((get_overdue_tasks_report (fun _ => none) 0 (.ok (some [w9task])) []).get
          "summary".data).bind (fun s => s.get "overdue_percentage".data)
        = some (Json.num pct) ∧
      pct = (if ([w9task].filter (fun t => t.status ≠ some "done".data)).length ≠ 0 then
          pyRound 2 (((classifyTasks (fun _ => none) 0 [w9task]).1.length : ℚ) /
            (([w9task].filter (fun t => t.status ≠ some "done".data)).length : ℚ) * 100)
        else 0) ∧
      (([w9task].filter (fun t => t.status ≠ some "done".data)).length = 0 → pct = 0) ∧
      0 ≤ pct ∧ pct ≤ 100 :=
  claim_C9_overdue_percentage_guarded (fun _ => none) 0 [w9task] [] (by decide)

/-! ## The dashboard's date-range AttributeError -/

/-- C1 (the code, not the claim): with a valid token and both fetches
succeeding with empty lists, get_productivity_dashboard returns the
structured error object — the date-range expression
datetime.now(datetime.timezone.utc) raises AttributeError on every call
(`datetime` names the class there), so the dashboard object with the
documented keys is never produced. -/
theorem claim_C1_dashboard_always_errors :
    get_productivity_dashboard (fun _ => none) (fun _ => []) (fun _ => [])
      { token := some "tok".data, notes := .ok (some []), tasks := .ok (some []) } 7
      = Json.obj [("error".data,
          Json.str ("Failed to generate productivity dashboard: ".data ++
            "type object datetime.datetime has no attribute timezone".data))] := rfl

/-! ## Completion percentages -/

/-- A completed task. -/
def w8done : Task :=
  { id := none, title := none, description := none, status := some "done".data,
    priority := none, category := none, due_date := none, created_at := none }

/-- Counterexample to C8 as stated: with 3 tasks of which 1 is done,
get_task_statistics emits round(100/3, 1) = 33.3, which is not equal to
done/total*100 = 100/3 — the emitted percentage is the rounded value. -/
theorem claim_C8_counterexample :
    (get_task_statistics (.ok (some [w8done, w9task, w9task]))).get
        "completion_percentage".data
      = some (Json.num (pyRound 1 (((1:ℕ):ℚ) / ((3:ℕ):ℚ) * 100))) ∧
    pyRound 1 (((1:ℕ):ℚ) / ((3:ℕ):ℚ) * 100) ≠ ((1:ℕ):ℚ) / ((3:ℕ):ℚ) * 100 := by
  constructor
  · rfl
  · have h1 : (((1:ℕ):ℚ) / ((3:ℕ):ℚ) * 100) = 100/3 := by norm_num
    rw [h1]
    have hfl : ⌊(100:ℚ)/3 * 10 ^ (1:ℕ)⌋ = 333 := by
      rw [Int.floor_eq_iff]
      constructor <;> norm_num
    unfold pyRound roundHalfEven
    rw [hfl]
    rw [if_pos (by push_cast; norm_num)]
    push_cast
    norm_num

/-- C8 (amended): get_task_statistics emits done/total*100 rounded to 1
decimal (0 when there is no task; the value always lies between 0 and
100, so the division is guarded), and the dashboard's completion-rate
expression is exactly done/total*100 with 0 for an empty list, likewise
bounded. -/
theorem claim_C8_amended_completion_rounded :
    (∀ tasks : List Task, ∃ pct : ℚ,
      (get_task_statistics (.ok (some tasks))).get "completion_percentage".data
        = some (Json.num pct) ∧
      pct = (if 0 < tasks.length then
          pyRound 1 (((tasks.filter (fun t => t.status = some "done".data)).length : ℚ)
            / (tasks.length : ℚ) * 100)
        else 0) ∧
      (tasks.length = 0 → pct = 0) ∧ 0 ≤ pct ∧ pct ≤ 100) ∧
    (∀ tasks : List Task,
      dashCompletionRate tasks = (if tasks ≠ [] then
        ((tasks.filter (fun t => t.status = some "done".data)).length : ℚ)
          / (tasks.length : ℚ) * 100 else 0) ∧
      (tasks = [] → dashCompletionRate tasks = 0) ∧
      0 ≤ dashCompletionRate tasks ∧ dashCompletionRate tasks ≤ 100) := by
  have hratio_le : ∀ tasks : List Task, tasks.length ≠ 0 →
      ((tasks.filter (fun t => t.status = some "done".data)).length : ℚ)
        / (tasks.length : ℚ) * 100 ≤ ((100:ℤ) : ℚ) := by
    intro tasks hpos
    have hle : ((tasks.filter (fun t => t.status = some "done".data)).length : ℚ)
        ≤ (tasks.length : ℚ) := by
      exact_mod_cast List.length_filter_le _ tasks
    have hq : (0:ℚ) < (tasks.length : ℚ) := by
      have := Nat.pos_of_ne_zero hpos
      exact_mod_cast this
    rw [div_mul_eq_mul_div, div_le_iff₀ hq]
    push_cast
    nlinarith
  constructor
  · intro tasks
    have hlook : (get_task_statistics (.ok (some tasks))).get
        "completion_percentage".data
        = some (Json.num (if 0 < tasks.length then
            pyRound 1 (((tasks.filter (fun t => t.status = some "done".data)).length : ℚ)
              / (tasks.length : ℚ) * 100)
          else 0)) := by
      unfold get_task_statistics statsBody
      dsimp only
      rfl
    refine ⟨_, hlook, rfl, ?_, ?_, ?_⟩
    · intro h0
      rw [h0]
      norm_num
    · split_ifs with hpos
      · exact pyRound_nonneg 1 (by positivity)
      · exact le_refl 0
    · split_ifs with hpos
      · have := pyRound_le_int 1 (hratio_le tasks (by omega))
        exact_mod_cast this
      · norm_num
  · intro tasks
    refine ⟨rfl, ?_, ?_, ?_⟩
    · intro h0
      unfold dashCompletionRate
      rw [if_neg (not_not_intro h0)]
    · unfold dashCompletionRate
      split_ifs with hne
      · positivity
      · exact le_refl 0
    · unfold dashCompletionRate
      split_ifs with hne
      · have hlen : tasks.length ≠ 0 := by
          intro hc
          exact hne (List.length_eq_zero.mp hc)
        have := hratio_le tasks hlen
        exact_mod_cast this
      · norm_num

/-! ## Content previews of duplicate entries -/

lemma calcSim_ok_fields (n1 n2 : Note) (q : ℚ)
    (h : calculate_similarity n1 n2 = .ok q) :
    (∃ s, pyGet n1.title (some []) = some s) ∧
    (∃ s, pyGet n1.content (some []) = some s) ∧
    (∃ s, pyGet n2.title (some []) = some s) ∧
    (∃ s, pyGet n2.content (some []) = some s) := by
  unfold calculate_similarity at h
  cases h1 : pyGet n1.title (some []) <;> rw [h1] at h <;>
    cases h2 : pyGet n1.content (some []) <;> rw [h2] at h <;>
    cases h3 : pyGet n2.title (some []) <;> rw [h3] at h <;>
    cases h4 : pyGet n2.content (some []) <;> rw [h4] at h <;>
    simp only [strOrTypeError, Bind.bind, Except.bind] at h <;>
    try exact Except.noConfusion h
  exact ⟨⟨_, rfl⟩, ⟨_, rfl⟩, ⟨_, rfl⟩, ⟨_, rfl⟩⟩

lemma contentPreview_of_some {content : Option (Option PyStr)} {c : PyStr}
    (h : pyGet content (some []) = some c) :
    contentPreview content
      = some (if 100 < c.length then c.take 100 ++ "...".data else c) := by
  unfold contentPreview
  rw [h]
  simp only [pyOrEmpty, Option.getD_some]
  split_ifs <;> rfl

lemma dupScan_entries (thr : ℚ) (notes : List Note) :
    ∀ (ps : List (ℕ × ℕ)) (checked : Finset (PyStr × PyStr))
      (dups : List DupEntry),
      (∀ p ∈ ps, p.1 < notes.length ∧ p.2 < notes.length) →
      (dupScan thr notes ps checked).2 = .ok dups →
      ∀ entry ∈ dups, ∃ i j sim,
        i < notes.length ∧ j < notes.length ∧
        calculate_similarity (notes.getD i default) (notes.getD j default) = .ok sim ∧
        entry = mkDupEntry sim (notes.getD i default) (notes.getD j default) := by
  intro ps
  induction ps with
  | nil =>
    intro checked dups _ hok entry hent
    simp only [dupScan] at hok
    cases hok
    exact absurd hent (List.not_mem_nil _)
  | cons p rest ih =>
    intro checked dups hbound hok entry hent
    obtain ⟨i, j⟩ := p
    simp only [dupScan] at hok
    by_cases hkey : pairKey (notes.getD i default).id (notes.getD j default).id ∈ checked
    · rw [if_pos hkey] at hok
      exact ih checked dups (fun q hq => hbound q (List.mem_cons_of_mem _ hq)) hok entry hent
    · rw [if_neg hkey] at hok
      cases hsimv : calculate_similarity (notes.getD i default) (notes.getD j default) with
      | error e =>
        rw [hsimv] at hok
        exact Except.noConfusion hok
      | ok sim =>
        rw [hsimv] at hok
        dsimp only at hok
        cases hrec : (dupScan thr notes rest
            (insert (pairKey (notes.getD i default).id (notes.getD j default).id)
              checked)).2 with
        | error e => rw [hrec] at hok; exact Except.noConfusion hok
        | ok ds =>
          rw [hrec] at hok
          simp only [Except.map, Except.ok.injEq] at hok
          subst hok
          rcases List.mem_append.mp hent with hpre | hds
          · have hb := hbound (i, j) (List.mem_cons_self ..)
            split_ifs at hpre with hthr
            · rcases List.mem_singleton.mp hpre with rfl
              exact ⟨i, j, sim, hb.1, hb.2, hsimv, rfl⟩
            · exact absurd hpre (List.not_mem_nil _)
          · exact ih _ ds (fun q hq => hbound q (List.mem_cons_of_mem _ hq)) hrec entry hds

/-- C3: every note view inside a reachable duplicate entry comes from a
fetched note whose effective content (defaulting to the empty string when
the field is absent) is a string c, and its content_preview is some of c
truncated to 100 characters with an ellipsis appended when c is longer
than 100 characters — in particular the preview is never null.  (A note
with an explicitly null content never reaches an entry: scoring it raises
TypeError and the whole call returns the error result instead.) -/
theorem claim_C3_content_preview_never_null (thr : ℚ) (notes : List Note)
    (dups : List DupEntry)
    (hscan : (dupScan thr notes (idxPairs notes.length) ∅).2 = .ok dups) :
    ∀ entry ∈ dups, ∀ v ∈ entry.notes, ∃ n ∈ notes, ∃ c : PyStr,
      v = mkDupNoteInfo n ∧
      pyOrEmpty (pyGet n.content (some [])) = c ∧
      v.content_preview
        = some (if 100 < c.length then c.take 100 ++ "...".data else c) := by
  intro entry hent v hv
  have hbound : ∀ p ∈ idxPairs notes.length,
      p.1 < notes.length ∧ p.2 < notes.length := by
    intro p hp
    have := mem_idxPairs.mp hp
    omega
  obtain ⟨i, j, sim, hi, hj, hsim, rfl⟩ :=
    dupScan_entries thr notes (idxPairs notes.length) ∅ dups hbound hscan entry hent
  have hfields := calcSim_ok_fields _ _ _ hsim
  have hmem1 : notes.getD i default ∈ notes := by
    rw [List.getD_eq_getElem _ _ hi]
    exact List.getElem_mem _
  have hmem2 : notes.getD j default ∈ notes := by
    rw [List.getD_eq_getElem _ _ hj]
    exact List.getElem_mem _
  rcases List.mem_cons.mp hv with rfl | hv2
  · obtain ⟨c, hc⟩ := hfields.2.1
    refine ⟨notes.getD i default, hmem1, c, rfl, by rw [hc]; rfl, ?_⟩
    exact contentPreview_of_some hc
  · rcases List.mem_cons.mp hv2 with rfl | hv3
    · obtain ⟨c, hc⟩ := hfields.2.2.2
      refine ⟨notes.getD j default, hmem2, c, rfl, by rw [hc]; rfl, ?_⟩
      exact contentPreview_of_some hc
    · exact absurd hv3 (List.not_mem_nil _)

/-- A duplicate of wNoteA's text under a different id. -/
def wNoteC : Note :=
  { id := "c".data, title := some (some "x".data), content := some (some "y z".data),
    created_at := none, category := none }

/-- Witness for C3: the identical-text pair produces one entry, and the
first note view carries the non-null preview of its content. -/
theorem claim_C3_witness :
    ∃ n ∈ [wNoteA, wNoteC], ∃ c : PyStr,
      mkDupNoteInfo wNoteA = mkDupNoteInfo n ∧
      pyOrEmpty (pyGet n.content (some [])) = c ∧
      (mkDupNoteInfo wNoteA).content_preview
        = some (if 100 < c.length then c.take 100 ++ "...".data else c) := by
  have h1 : (dupScan (4/5) [wNoteA, wNoteC] (idxPairs 2) ∅).2
      = .ok ((if (4/5:ℚ) ≤ ((3:ℕ):ℚ)/((3:ℕ):ℚ) then
          [mkDupEntry (((3:ℕ):ℚ)/((3:ℕ):ℚ)) wNoteA wNoteC] else []) ++ []) := rfl
  have h2 : (dupScan (4/5) [wNoteA, wNoteC] (idxPairs 2) ∅).2
      = .ok [mkDupEntry (((3:ℕ):ℚ)/((3:ℕ):ℚ)) wNoteA wNoteC] := by
    rw [h1, if_pos (by norm_num : (4/5:ℚ) ≤ ((3:ℕ):ℚ)/((3:ℕ):ℚ))]
    rfl
  exact claim_C3_content_preview_never_null (4/5) [wNoteA, wNoteC] _ h2
    (mkDupEntry (((3:ℕ):ℚ)/((3:ℕ):ℚ)) wNoteA wNoteC) (List.mem_cons_self ..)
    (mkDupNoteInfo wNoteA) (List.mem_cons_self ..)

/-! ## The duplicate count before the top-20 cap -/

lemma length_sortDupsDesc (ds : List DupEntry) :
    (sortDupsDesc ds).length = ds.length := length_stableSort ..

lemma find_dup_shape (thr : ℚ) (notes : List Note) (dups : List DupEntry)
    (genAt : PyStr) (h2 : 2 ≤ notes.length)
    (hscan : (dupScan thr notes (idxPairs notes.length) ∅).2 = .ok dups) :
    (find_duplicate_notes (.ok (some notes)) thr genAt).get
        "duplicate_groups_found".data = some (Json.num (dups.length : ℚ)) ∧
    ∃ shown : List Json,
      (find_duplicate_notes (.ok (some notes)) thr genAt).get "duplicates".data
        = some (Json.arr shown) ∧ shown.length = min dups.length 20 := by
  have hnl : ¬ notes.length < 2 := by omega
  have hfld : (find_duplicate_notes (.ok (some notes)) thr genAt).get
      "duplicate_groups_found".data
      = some (Json.num ((sortDupsDesc dups).length : ℚ)) := by
    unfold find_duplicate_notes findDupBody
    dsimp only
    rw [if_neg hnl, hscan]
    rfl
  have harr : (find_duplicate_notes (.ok (some notes)) thr genAt).get
      "duplicates".data
      = some (Json.arr (((sortDupsDesc dups).take 20).map dupEntryToJson)) := by
    unfold find_duplicate_notes findDupBody
    dsimp only
    rw [if_neg hnl, hscan]
    rfl
  constructor
  · rw [hfld, length_sortDupsDesc]
  · refine ⟨_, harr, ?_⟩
    rw [List.length_map, List.length_take, length_sortDupsDesc, Nat.min_comm]

lemma flatMap_singleton_eq_map (l : List α) (f : α → β) :
    l.flatMap (fun x => [f x]) = l.map f := by
  induction l with
  | nil => rfl
  | cons a as ih => simp [List.flatMap_cons, ih]

/-- One of seven notes with identical text and distinct one-letter ids. -/
def w10note (i : Char) : Note :=
  { id := [i], title := some (some "x".data), content := some (some "y z".data),
    created_at := none, category := none }

/-- Seven identical-text notes: 21 unordered pairs, all of similarity 1. -/
def w10notes : List Note :=
  [w10note 'a', w10note 'b', w10note 'c', w10note 'd', w10note 'e',
   w10note 'f', w10note 'g']

/-- The duplicate entries the scan collects over w10notes (one per index
pair, since every pair has similarity 3/3 which meets the threshold). -/
def w10dups : List DupEntry :=
  (idxPairs 7).flatMap (fun p =>
    if (4/5:ℚ) ≤ ((3:ℕ):ℚ)/((3:ℕ):ℚ) then
      [mkDupEntry (((3:ℕ):ℚ)/((3:ℕ):ℚ))
        (w10notes.getD p.1 default) (w10notes.getD p.2 default)]
    else [])

lemma w10dups_length : w10dups.length = 21 := by
  have hc : (4/5:ℚ) ≤ ((3:ℕ):ℚ)/((3:ℕ):ℚ) := by norm_num
  unfold w10dups
  simp only [if_pos hc]
  rw [flatMap_singleton_eq_map, List.length_map]
  decide

/-- C10: duplicate_groups_found reports the number of threshold-meeting
pairs before the top-20 cap, while the duplicates list is the first 20
entries of the descending-sorted list, so the reported count can exceed
the number of entries returned (witnessed by 7 identical notes: 21 groups
found, 20 entries shown). -/
theorem claim_C10_groups_found_precap :
    (∀ (thr : ℚ) (notes : List Note) (dups : List DupEntry) (genAt : PyStr),
      2 ≤ notes.length →
      (dupScan thr notes (idxPairs notes.length) ∅).2 = .ok dups →
      (find_duplicate_notes (.ok (some notes)) thr genAt).get
          "duplicate_groups_found".data = some (Json.num (dups.length : ℚ)) ∧
      ∃ shown : List Json,
        (find_duplicate_notes (.ok (some notes)) thr genAt).get "duplicates".data
          = some (Json.arr shown) ∧ shown.length = min dups.length 20) ∧
    (∃ (thr : ℚ) (notes : List Note) (dups : List DupEntry),
      (dupScan thr notes (idxPairs notes.length) ∅).2 = .ok dups ∧
      (find_duplicate_notes (.ok (some notes)) thr []).get
          "duplicate_groups_found".data = some (Json.num (dups.length : ℚ)) ∧
      ∃ shown : List Json,
        (find_duplicate_notes (.ok (some notes)) thr []).get "duplicates".data
          = some (Json.arr shown) ∧ shown.length < dups.length) := by
  constructor
  · exact find_dup_shape
  · have hscan : (dupScan (4/5) w10notes (idxPairs w10notes.length) ∅).2
        = .ok w10dups := rfl
    obtain ⟨hfld, shown, harr, hlen⟩ :=
      find_dup_shape (4/5) w10notes w10dups [] (by decide) hscan
    refine ⟨4/5, w10notes, w10dups, hscan, hfld, shown, harr, ?_⟩
    rw [hlen, w10dups_length]
    decide

/-! ## Structured results at every entry point -/

/-- The result is a single JSON object value. -/
def isObjResult (j : Json) : Prop := ∃ fields, j = Json.obj fields

lemma dashboardBody_ok_obj (parse : PyStr → Option Int) (dayKey : Int → PyStr)
    (isoFmt : Int → PyStr) (env : DashFetch) (days_back : Int) {j : Json}
    (h : dashboardBody parse dayKey isoFmt env days_back = .ok j) :
    isObjResult j := by
  unfold dashboardBody at h
  split_ifs at h with htok
  · exact ⟨_, (Except.ok.inj h).symm⟩
  · simp only [datetimeNowTzUtc] at h
    exact Except.noConfusion h

lemma findDupBody_ok_obj (fetch : Fetch Note) (thr : ℚ) (genAt : PyStr) {j : Json}
    (h : findDupBody fetch thr genAt = .ok j) : isObjResult j := by
  cases fetch with
  | error e => exact Except.noConfusion h
  | ok o =>
    cases o with
    | none => exact Except.noConfusion h
    | some notes =>
      simp only [findDupBody] at h
      split_ifs at h with hlen
      · exact ⟨_, (Except.ok.inj h).symm⟩
      · cases hsc : (dupScan thr notes (idxPairs notes.length) ∅).2 with
        | error e => rw [hsc] at h; exact Except.noConfusion h
        | ok ds =>
          rw [hsc] at h
          exact ⟨_, (Except.ok.inj h).symm⟩

lemma overdueReportBody_ok_obj (parse : PyStr → Option Int) (now : Int)
    (fetch : Fetch Task) (genAt : PyStr) {j : Json}
    (h : overdueReportBody parse now fetch genAt = .ok j) : isObjResult j := by
  cases fetch with
  | error e => exact Except.noConfusion h
  | ok o =>
    cases o with
    | none => exact Except.noConfusion h
    | some tasks =>
      simp only [overdueReportBody] at h
      split_ifs at h <;> exact ⟨_, (Except.ok.inj h).symm⟩

lemma insightsBody_ok_obj (fetch : Fetch Note) (genAt : PyStr) {j : Json}
    (h : insightsBody fetch genAt = .ok j) : isObjResult j := by
  cases fetch with
  | error e => exact Except.noConfusion h
  | ok o =>
    cases o with
    | none => exact Except.noConfusion h
    | some notes =>
      simp only [insightsBody] at h
      split_ifs at h with hlen
      · exact ⟨_, (Except.ok.inj h).symm⟩
      · exact ⟨_, (Except.ok.inj h).symm⟩

/-- C2: each of the four analytics entry points is a total function into a
single JSON value, that value is always an object, and whenever the
function's try-block raises, the returned object is exactly the structured
error object carrying the entry point's message prefix followed by the
exception text. -/
theorem claim_C2_structured_results_never_throw :
    (∀ (parse : PyStr → Option Int) (dayKey isoFmt : Int → PyStr)
        (env : DashFetch) (days_back : Int),
      isObjResult (get_productivity_dashboard parse dayKey isoFmt env days_back) ∧
      ∀ e, dashboardBody parse dayKey isoFmt env days_back = .error e →
        get_productivity_dashboard parse dayKey isoFmt env days_back
          = Json.obj [("error".data, Json.str
              ("Failed to generate productivity dashboard: ".data ++ e))]) ∧
    (∀ (fetch : Fetch Note) (thr : ℚ) (genAt : PyStr),
      isObjResult (find_duplicate_notes fetch thr genAt) ∧
      ∀ e, findDupBody fetch thr genAt = .error e →
        find_duplicate_notes fetch thr genAt
          = Json.obj [("error".data, Json.str
              ("Failed to find duplicate notes: ".data ++ e))]) ∧
    (∀ (parse : PyStr → Option Int) (now : Int) (fetch : Fetch Task) (genAt : PyStr),
      isObjResult (get_overdue_tasks_report parse now fetch genAt) ∧
      ∀ e, overdueReportBody parse now fetch genAt = .error e →
        get_overdue_tasks_report parse now fetch genAt
          = Json.obj [("error".data, Json.str
              ("Failed to generate overdue tasks report: ".data ++ e))]) ∧
    (∀ (fetch : Fetch Note) (genAt : PyStr),
      isObjResult (get_content_insights fetch genAt) ∧
      ∀ e, insightsBody fetch genAt = .error e →
        get_content_insights fetch genAt
          = Json.obj [("error".data, Json.str
              ("Failed to generate content insights: ".data ++ e))]) := by
  refine ⟨?_, ?_, ?_, ?_⟩
  · intro parse dayKey isoFmt env days_back
    constructor
    · unfold get_productivity_dashboard
      cases hb : dashboardBody parse dayKey isoFmt env days_back with
      | ok j => exact dashboardBody_ok_obj parse dayKey isoFmt env days_back hb
      | error e => exact ⟨_, rfl⟩
    · intro e he
      unfold get_productivity_dashboard
      rw [he]
  · intro fetch thr genAt
    constructor
    · unfold find_duplicate_notes
      cases hb : findDupBody fetch thr genAt with
      | ok j => exact findDupBody_ok_obj fetch thr genAt hb
      | error e => exact ⟨_, rfl⟩
    · intro e he
      unfold find_duplicate_notes
      rw [he]
  · intro parse now fetch genAt
    constructor
    · unfold get_overdue_tasks_report
      cases hb : overdueReportBody parse now fetch genAt with
      | ok j => exact overdueReportBody_ok_obj parse now fetch genAt hb
      | error e => exact ⟨_, rfl⟩
    · intro e he
      unfold get_overdue_tasks_report
      rw [he]
  · intro fetch genAt
    constructor
    · unfold get_content_insights
      cases hb : insightsBody fetch genAt with
      | ok j => exact insightsBody_ok_obj fetch genAt hb
      | error e => exact ⟨_, rfl⟩
    · intro e he
      unfold get_content_insights
      rw [he]

end Lightspeed
